import Mathlib

/-!
Shallow embedding of the flaskchatserver repository (src/app.py, src/ct.py)
and proofs about its request handling, context loading, streaming and the
thumbnail batch script.

Conventions of the embedding:
* Python strings are `String`, decoded JSON values are the inductive `Json`.
* Python truthiness is the Boolean `Json.truthy` / `truthyOpt`.
* The data directory is modelled as `FS`: a flag for `os.path.isdir` and the
  association list of its direct children together with whether each file
  parses as JSON.  `load_video_context` additionally reports whether the
  filesystem was reached (an `open`/`listdir` was attempted), so that
  "without touching the filesystem" is a statement of the model.
* The external Gemini model is a parameter: for `/ask` a function
  `gen : String → Except String String` (answer text or a raised exception
  message); for `/ask-streaming`, the list of chunk texts delivered before
  the stream either ends normally (`fail = none`) or raises (`fail = some e`).
* Flask responses are `Outcome`: status code, headers, body, plus the two
  effect flags (model called, filesystem reached).
-/

set_option autoImplicit false

/-- A decoded JSON value, as produced by Python's `json.load` /
`request.get_json()`.  Numbers are modelled as integers; no claim depends on
fractional values. -/
inductive Json where
  | null : Json
  | bool : Bool → Json
  | num : Int → Json
  | str : String → Json
  | arr : List Json → Json
  | obj : List (String × Json) → Json

/-- Python truthiness (`if not data`, `all([...])`) of a decoded JSON value:
`None`, `False`, `0`, `""`, `[]` and `\x7b\x7d` are falsy. -/
def Json.truthy : Json → Bool
  | .null => false
  | .bool b => b
  | .num n => n != 0
  | .str s => s != ""
  | .arr xs => !xs.isEmpty
  | .obj kvs => !kvs.isEmpty

/-- `dict.get(key)`: first binding of `key`, or `None`.  (A Python dict has
unique keys, so first-match lookup is exact.) -/
def getField : List (String × Json) → String → Option Json
  | [], _ => none
  | (k, v) :: rest, key => if k = key then some v else getField rest key

/-- Truthiness of `data.get(key)`: `None` (absent key) is falsy. -/
def truthyOpt : Option Json → Bool
  | none => false
  | some j => j.truthy

/-- Accumulator pass of POSIX `os.path.basename`: the suffix after the last
`'/'` (the accumulator is reset at every separator). -/
def basenameAux (acc : List Char) : List Char → List Char
  | [] => acc
  | c :: cs => if c = '/' then basenameAux [] cs else basenameAux (acc ++ [c]) cs

/-- `os.path.basename` on POSIX: everything after the last `'/'`. -/
def basename (p : String) : String :=
  String.mk (basenameAux [] p.data)

/-- `as` is a prefix of `bs`, character by character. -/
def charsPre : List Char → List Char → Bool
  | [], _ => true
  | _ :: _, [] => false
  | a :: as, b :: bs => a == b && charsPre as bs

/-- Python's `s.endswith(suffix)`. -/
def pyEndsWith (s suffix : String) : Bool :=
  charsPre suffix.data.reverse s.data.reverse

/-- Split a comma-separated header value into its items. -/
def splitCommas (s : String) : List String :=
  go s.data []
where
  go : List Char → List Char → List String
    | [], acc => [String.mk acc.reverse]
    | c :: cs, acc =>
      if c = ',' then String.mk acc.reverse :: go cs []
      else go cs (c :: acc)

/-- `n` spaces, for JSON indentation. -/
def spaces (n : Nat) : String :=
  String.mk (List.replicate n ' ')

mutual
/-- Models Python's `json.dumps(v, indent=2)` (stdlib, external to the
repository).  Per the spec (§4.1) only readability of the serialization
matters, and no claim depends on the exact text; string escaping is elided. -/
def dumpsVal : Nat → Json → String
  | _, .null => "null"
  | _, .bool b => if b then "true" else "false"
  | _, .num n => toString n
  | _, .str s => "\"" ++ s ++ "\""
  | _, .arr [] => "[]"
  | ind, .arr (x :: xs) =>
      "[\n" ++ dumpsItems (ind + 2) (x :: xs) ++ "\n" ++ spaces ind ++ "]"
  | _, .obj [] => "\x7b\x7d"
  | ind, .obj (kv :: kvs) =>
      "\x7b\n" ++ dumpsFields (ind + 2) (kv :: kvs) ++ "\n" ++ spaces ind ++ "\x7d"

/-- Array elements of `dumpsVal`, one per line, comma separated. -/
def dumpsItems : Nat → List Json → String
  | _, [] => ""
  | ind, [x] => spaces ind ++ dumpsVal ind x
  | ind, x :: y :: xs =>
      spaces ind ++ dumpsVal ind x ++ ",\n" ++ dumpsItems ind (y :: xs)

/-- Object fields of `dumpsVal`, one per line, comma separated. -/
def dumpsFields : Nat → List (String × Json) → String
  | _, [] => ""
  | ind, [(k, v)] => spaces ind ++ "\"" ++ k ++ "\": " ++ dumpsVal ind v
  | ind, (k, v) :: kv :: kvs =>
      spaces ind ++ "\"" ++ k ++ "\": " ++ dumpsVal ind v ++ ",\n" ++
        dumpsFields ind (kv :: kvs)
end

/-- Models Python's `str()` applied to a decoded JSON value, as occurs when a
non-string `question` is interpolated into the prompt f-string.  The handlers
reach this with strings in every claim below (`pyStr (.str s) = s`); the
rendering of the other constructors is irrelevant to every theorem. -/
def pyStr : Json → String
  | .str s => s
  | .bool b => if b then "True" else "False"
  | .null => "None"
  | .num n => toString n
  | j => dumpsVal 0 j

/-- `str(data.get("question"))` as used on the success path (the field is
present there, so the `none` case is unreachable). -/
def pyStrOpt : Option Json → String
  | none => "None"
  | some j => pyStr j

/-- What a file of the data directory holds: content that parses as JSON, or
content that raises `json.JSONDecodeError`. -/
inductive FileContent where
  | validJson : Json → FileContent
  | invalidJson : FileContent

/-- The state of the fixed data directory `JSON_DATA_DIR = "json"`:
whether the directory exists, and its direct children (filename, content). -/
structure FS where
  dirExists : Bool
  files : List (String × FileContent)

/-- Opening `json/<name>`: first file with that name, else `FileNotFoundError`. -/
def FS.lookup (fs : FS) (name : String) : Option FileContent :=
  go fs.files
where
  go : List (String × FileContent) → Option FileContent
    | [] => none
    | (k, v) :: rest => if k = name then some v else go rest

/-- The three exception classes `load_video_context` raises:
`ValueError` (bad filename), `FileNotFoundError`, `json.JSONDecodeError`. -/
inductive LoadError where
  | invalidFilename : LoadError
  | notFound : LoadError
  | invalidFormat : LoadError
deriving DecidableEq

/-- `str(e)` for the exceptions raised by `load_video_context`
(`json.JSONDecodeError.__str__` appends the line/column position). -/
def LoadError.message (filename : String) : LoadError → String
  | .invalidFilename => "Invalid filename provided. Directory traversal is not permitted."
  | .notFound => "The requested analysis file \x27" ++ filename ++ "\x27 was not found."
  | .invalidFormat => "The file \x27" ++ filename ++ "\x27 contains invalid JSON.: line 1 column 1 (char 0)"

/-- `load_video_context(filename)` from src/app.py: reject filenames whose
basename differs from themselves, else open `json/<filename>` and re-serialize
its parsed content with `json.dumps(..., indent=2)`.  The second component
records whether the filesystem was reached (the `open` call was attempted);
the filename guard fires before any filesystem access. -/
def load_video_context (fs : FS) (filename : String) :
    Except LoadError String × Bool :=
  if basename filename ≠ filename then
    (.error .invalidFilename, false)
  else
    match fs.lookup filename with
    | none => (.error .notFound, true)
    | some .invalidJson => (.error .invalidFormat, true)
    | some (.validJson j) => (.ok (dumpsVal 0 j), true)

/-- `create_prompt(question, video_context_string)` from src/app.py: the
f-string template, transcribed with its literal indentation. -/
def create_prompt (question : String) (video_context_string : String) : String :=
  "\n    You are a helpful assistant that answers questions about a video.\n    Use ONLY the following JSON data as your context to answer the user\x27s question.\n    Do not make up information. If the answer is not in the data, say \"I don\x27t have information on that.\"\n    \n    **CRITICAL INSTRUCTION: When you provide information about an event or spoken word, ALWAYS include the exact timestamp(s) in MM:SS format directly from the provided JSON context.**\n\n    --- Video Context (JSON) ---\n    "
    ++ video_context_string ++
  "\n    --- End of Context ---\n\n    User\x27s Question: \"" ++ question ++ "\"\n    "

/-- The body of a Flask response: a `jsonify(...)` value, a streamed sequence
of text chunks, or the empty body of a bare `Response()`. -/
inductive RespBody where
  | json : Json → RespBody
  | stream : List String → RespBody
  | empty : RespBody

/-- A Flask response together with the two observable effects of a handler:
whether the Gemini model was invoked and whether the data directory was
reached (a file `open` or `listdir` was attempted). -/
structure Outcome where
  status : Nat
  headers : List (String × String)
  body : RespBody
  modelCalled : Bool
  fsTouched : Bool

/-- `jsonify({"error": msg})`. -/
def errorJson (msg : String) : RespBody :=
  .json (.obj [("error", .str msg)])

/-- `handle_preflight()` from src/app.py: a bare 200 `Response()` carrying
exactly the three CORS headers with the literal values of the source. -/
def handle_preflight : Outcome :=
  ⟨200,
   [("Access-Control-Allow-Origin", "*"),
    ("Access-Control-Allow-Headers", "Content-Type,Authorization"),
    ("Access-Control-Allow-Methods", "GET,POST,OPTIONS")],
   .empty, false, false⟩

/-- `list_videos()` (route `GET/OPTIONS /videos`): preflight on OPTIONS, 500
when `os.path.isdir("json")` fails, otherwise the `os.listdir` names that
`endswith(".json")`, jsonified.  Both non-OPTIONS branches consult the
filesystem (`isdir` / `listdir`). -/
def list_videos (fs : FS) (method : String) : Outcome :=
  if method = "OPTIONS" then handle_preflight
  else if !fs.dirExists then
    ⟨500, [], errorJson "Server configuration error: Directory \x27json\x27 not found.", false, true⟩
  else
    ⟨200, [],
     .json (.arr (((fs.files.map Prod.fst).filter (fun f => pyEndsWith f ".json")).map Json.str)),
     false, true⟩

/-- `ask_question()` (route `POST/OPTIONS /ask`).  `gen` is the external
`model.generate_content`: `.ok` is a response with its `.text`, `.error` an
exception message.  The branches follow src/app.py lines 117-139: preflight;
`not data` → 400; non-dict truthy body → `data.get` raises `AttributeError`
outside any try, which Flask turns into a bare 500; missing/falsy fields →
400; then the try block, where `ValueError`/`FileNotFoundError`/
`JSONDecodeError` map to 404, a non-string `video_file` raises `TypeError`
inside `os.path.basename` and falls to the blanket `except Exception` → 500,
and a model exception likewise maps to 500. -/
def ask_question (fs : FS) (gen : String → Except String String)
    (method : String) (data : Option Json) : Outcome :=
  if method = "OPTIONS" then handle_preflight
  else
    match data with
    | none => ⟨400, [], errorJson "Invalid request. Expecting JSON body.", false, false⟩
    | some d =>
      if !d.truthy then
        ⟨400, [], errorJson "Invalid request. Expecting JSON body.", false, false⟩
      else
        match d with
        | .obj fields =>
          let question := getField fields "question"
          let video_file := getField fields "video_file"
          if !(truthyOpt question && truthyOpt video_file) then
            ⟨400, [], errorJson "Both \x27question\x27 and \x27video_file\x27 must be provided.", false, false⟩
          else
            match video_file with
            | some (.str vf) =>
              (match load_video_context fs vf with
               | (.error e, touched) =>
                 ⟨404, [], errorJson (e.message vf), false, touched⟩
               | (.ok ctx, touched) =>
                 match gen (create_prompt (pyStrOpt question) ctx) with
                 | .ok ans =>
                   ⟨200, [], .json (.obj [("answer", .str ans)]), true, touched⟩
                 | .error msg =>
                   ⟨500, [], errorJson ("An internal server error occurred: " ++ msg), true, touched⟩)
            | _ =>
              ⟨500, [], errorJson "An internal server error occurred: expected str, bytes or os.PathLike object", false, false⟩
        | _ =>
          ⟨500, [], .empty, false, false⟩

/-- The generator `stream_gemini_response()` of src/app.py: iterate the
chunks the upstream stream delivers, yielding `chunk.text` whenever it is
truthy (non-empty); if the upstream call raises — `chunks` then being the
chunks delivered before the exception — yield the inline error notice and
stop. -/
def stream_gemini_response : List String → Option String → List String
  | [], none => []
  | [], some e => ["\nAn error occurred during streaming: " ++ e]
  | c :: cs, fail =>
    if c != "" then c :: stream_gemini_response cs fail
    else stream_gemini_response cs fail

/-- `ask_question_streaming()` (route `POST/OPTIONS /ask-streaming`).
Validation and context loading mirror `ask_question` (same 400/404 paths,
except a non-string `video_file` raises a `TypeError` that the
`except (FileNotFoundError, JSONDecodeError, ValueError)` clause does not
catch, so Flask yields a bare 500); on success the response is a 200
`Response(stream_gemini_response(), mimetype="text/plain")` with the
manually added CORS origin header. -/
def ask_question_streaming (fs : FS) (chunks : List String) (fail : Option String)
    (method : String) (data : Option Json) : Outcome :=
  if method = "OPTIONS" then handle_preflight
  else
    match data with
    | none => ⟨400, [], errorJson "Invalid request. Expecting JSON body.", false, false⟩
    | some d =>
      if !d.truthy then
        ⟨400, [], errorJson "Invalid request. Expecting JSON body.", false, false⟩
      else
        match d with
        | .obj fields =>
          let question := getField fields "question"
          let video_file := getField fields "video_file"
          if !(truthyOpt question && truthyOpt video_file) then
            ⟨400, [], errorJson "Both \x27question\x27 and \x27video_file\x27 must be provided.", false, false⟩
          else
            match video_file with
            | some (.str vf) =>
              (match load_video_context fs vf with
               | (.error e, touched) =>
                 ⟨404, [], errorJson (e.message vf), false, touched⟩
               | (.ok _ctx, touched) =>
                 ⟨200, [("Access-Control-Allow-Origin", "*")],
                  .stream (stream_gemini_response chunks fail), true, touched⟩)
            | _ =>
              ⟨500, [], .empty, false, false⟩
        | _ =>
          ⟨500, [], .empty, false, false⟩

/-- `read_root()` (route `GET/OPTIONS /`). -/
def read_root (method : String) : Outcome :=
  if method = "OPTIONS" then handle_preflight
  else
    ⟨200, [],
     .json (.obj [("status", .str "Video Chat API is running. Use the /videos, /ask or /ask-streaming endpoints.")]),
     false, false⟩

/-- The streamed chunk list of an `Outcome` (empty for non-stream bodies). -/
def Outcome.streamBody (o : Outcome) : List String :=
  match o.body with
  | .stream cs => cs
  | _ => []

/-! ## The thumbnail batch script (src/ct.py) -/

/-- The hard-coded catalog `VIDEOS_DATA` of src/ct.py: (title, src) pairs. -/
def VIDEOS_DATA : List (String × String) :=
  [("Medical Training Day", "https://videodata3.s3.us-east-2.amazonaws.com/Medical+Content.mp4"),
   ("Bike Footage", "https://videodata3.s3.us-east-2.amazonaws.com/bike_footage.mp4"),
   ("Teardown", "https://videodata3.s3.us-east-2.amazonaws.com/teardown.mp4"),
   ("Construction", "https://videodata3.s3.us-east-2.amazonaws.com/carpentary+floor.mp4"),
   ("Medical Content", "https://videodata3.s3.us-east-2.amazonaws.com/Medical+Training+Day.mp4"),
   ("Building FPV", "https://videodata3.s3.us-east-2.amazonaws.com/clip_04_web.mp4"),
   ("Night Market", "https://videodata3.s3.us-east-2.amazonaws.com/night_market_cropped.mp4")]

/-- `THUMB_TIME = 1` (seconds). -/
def THUMB_TIME : Nat := 1

/-- `QUALITY = 2` (JPEG quality, lower is better). -/
def QUALITY : Nat := 2

/-- `output_folder = "media"`. -/
def output_folder : String := "media"

/-- One step of `re.sub(r'[^A-Za-z0-9]+', '_', title)`: each maximal run of
non-alphanumeric characters becomes a single underscore.  `inRun` records
whether the previous character belonged to such a run. -/
def sanitizeAux (inRun : Bool) : List Char → List Char
  | [] => []
  | c :: cs =>
    if c.isAlphanum then c :: sanitizeAux false cs
    else if inRun then sanitizeAux true cs
    else '_' :: sanitizeAux true cs

/-- `safe = re.sub(r'[^A-Za-z0-9]+', '_', title)`. -/
def sanitize (title : String) : String :=
  String.mk (sanitizeAux false title.data)

/-- `thumb = os.path.join(output_folder, f"(safe).jpg")`. -/
def thumbPath (title : String) : String :=
  output_folder ++ "/" ++ sanitize title ++ ".jpg"

/-- The ffmpeg command line built for one catalog entry. -/
def ffmpeg_cmd (url thumb : String) : List String :=
  ["ffmpeg", "-v", "error", "-ss", toString THUMB_TIME, "-i", url,
   "-vframes", "1", "-q:v", toString QUALITY, "-y", thumb]

/-- The element appended to `html_thumbnail_paths` on success. -/
def thumbLine (title : String) : String :=
  "thumbnail: \"" ++ thumbPath title ++ "\""

/-- The line printed for one entry: success tick or the failure log of the
`except subprocess.CalledProcessError` clause. -/
def batchLog (ok : Bool) (title : String) : String :=
  if ok then "✅ " ++ title
  else "❌ FFmpeg failed for \x27" ++ title ++ "\x27"

/-- The `for info in VIDEOS_DATA` loop of src/ct.py, front to back.
`ffmpegOk cmd` is the external `subprocess.run(cmd, check=True)` outcome:
`false` means `CalledProcessError`, which is caught, logged, and the loop
continues with the next entry.  Returns `(html_thumbnail_paths, log)`. -/
def batchLoop (ffmpegOk : List String → Bool) :
    List (String × String) → List String × List String
  | [] => ([], [])
  | entry :: rest =>
    let thumb := thumbPath entry.1
    let ok := ffmpegOk (ffmpeg_cmd entry.2 thumb)
    let tail := batchLoop ffmpegOk rest
    if ok then (thumbLine entry.1 :: tail.1, batchLog true entry.1 :: tail.2)
    else (tail.1, batchLog false entry.1 :: tail.2)

/-- The whole script run: process the full catalog. -/
def runBatch (ffmpegOk : List String → Bool) : List String × List String :=
  batchLoop ffmpegOk VIDEOS_DATA

/-! ## Concrete fixtures for witnesses and counterexamples -/

/-- A sample parsed context document. -/
def sampleDoc : Json :=
  .obj [("events", .arr [.obj [("timestamp", .str "00:05"), ("description", .str "intro")]])]

/-- A data directory holding a valid context, a non-JSON-named file and a
file with malformed content. -/
def fs0 : FS :=
  ⟨true, [("sample.json", .validJson sampleDoc),
          ("notes.txt", .validJson .null),
          ("bad.json", .invalidJson)]⟩

/-- A missing data directory. -/
def fsNoDir : FS := ⟨false, []⟩

/-- A model stub that always answers. -/
def gen0 : String → Except String String :=
  fun _ => .ok "The intro happens at 00:05."

/-- A well-formed `/ask` body. -/
def askFields : List (String × Json) :=
  [("question", .str "Where is the intro?"), ("video_file", .str "sample.json")]

/-! ## Helper lemmas -/

/-- The accumulator pass of `basename` never returns a separator, provided the
accumulator holds none. -/
theorem slash_not_mem_basenameAux (l : List Char) :
    ∀ acc : List Char, '/' ∉ acc → '/' ∉ basenameAux acc l := by
  induction l with
  | nil => intro acc h; simpa [basenameAux] using h
  | cons c cs ih =>
    intro acc h
    by_cases hc : c = '/'
    · subst hc
      simpa [basenameAux] using ih [] (by simp)
    · rw [basenameAux, if_neg hc]
      refine ih (acc ++ [c]) ?_
      intro hm
      rcases List.mem_append.mp hm with h1 | h1
      · exact h h1
      · simp only [List.mem_singleton] at h1
        exact hc h1.symm

/-- A filename containing a separator differs from its own basename. -/
theorem basename_ne_of_slash_mem (p : String) (h : '/' ∈ p.data) :
    basename p ≠ p := by
  intro heq
  have h2 : basenameAux [] p.data = p.data := congrArg String.data heq
  exact slash_not_mem_basenameAux p.data [] (by simp) (by rw [h2]; exact h)

/-- Concatenation of a list of strings, in order. -/
def concatAll : List String → String
  | [] => ""
  | s :: ss => s ++ concatAll ss

/-- Appending to the empty string is the identity. -/
theorem empty_append_str (s : String) : "" ++ s = s := by
  cases s
  rfl

/-- Dropping empty strings does not change a concatenation: the body of a
successful stream equals the concatenation of all chunk texts. -/
theorem concatAll_stream_none (chunks : List String) :
    concatAll (stream_gemini_response chunks none) = concatAll chunks := by
  induction chunks with
  | nil => rfl
  | cons c cs ih =>
    by_cases hc : c = ""
    · subst hc
      simpa [stream_gemini_response, concatAll, empty_append_str] using ih
    · simp [stream_gemini_response, hc, concatAll, ih]

/-- A failed stream is non-empty and ends with the inline error notice. -/
theorem stream_some_getLast (chunks : List String) (e : String) :
    stream_gemini_response chunks (some e) ≠ [] ∧
    (stream_gemini_response chunks (some e)).getLast? =
      some ("\nAn error occurred during streaming: " ++ e) := by
  induction chunks with
  | nil => exact ⟨by simp [stream_gemini_response], by simp [stream_gemini_response]⟩
  | cons c cs ih =>
    by_cases hc : c = ""
    · subst hc
      simpa [stream_gemini_response] using ih
    · obtain ⟨hne, hlast⟩ := ih
      have hcons : stream_gemini_response (c :: cs) (some e) =
          c :: stream_gemini_response cs (some e) := by
        simp [stream_gemini_response, hc]
      rw [hcons]
      refine ⟨by simp, ?_⟩
      rcases List.exists_cons_of_ne_nil hne with ⟨b, t, hbt⟩
      rw [hbt, List.getLast?_cons_cons, ← hbt]
      exact hlast

/-- A successful stream is exactly the chunk texts with the empty ones
filtered out. -/
theorem stream_none_eq_filter (chunks : List String) :
    stream_gemini_response chunks none = chunks.filter (fun t => t != "") := by
  induction chunks with
  | nil => rfl
  | cons c cs ih =>
    by_cases hc : c = "" <;> simp [stream_gemini_response, List.filter_cons, hc, ih]

/-- Unrolling the batch loop: the collected lines are the successful entries
in catalog order, and the log covers every entry in catalog order. -/
theorem batchLoop_eq (ffmpegOk : List String → Bool) (l : List (String × String)) :
    batchLoop ffmpegOk l =
      ((l.filter (fun e => ffmpegOk (ffmpeg_cmd e.2 (thumbPath e.1)))).map (fun e => thumbLine e.1),
       l.map (fun e => batchLog (ffmpegOk (ffmpeg_cmd e.2 (thumbPath e.1))) e.1)) := by
  induction l with
  | nil => rfl
  | cons x xs ih =>
    by_cases hx : ffmpegOk (ffmpeg_cmd x.2 (thumbPath x.1)) <;>
      simp [batchLoop, List.filter_cons, hx, ih]

/-! ## Claim theorems -/

/-- C1 (amended): for every filename containing a path separator `'/'` —
exactly the strings that differ from their own basename — `load` fails with
the `InvalidInput` error (`ValueError`) without touching the filesystem. -/
theorem load_separator_invalid_untouched (fs : FS) (filename : String)
    (h : '/' ∈ filename.data) :
    load_video_context fs filename = (.error .invalidFilename, false) := by
  have hb := basename_ne_of_slash_mem filename h
  simp [load_video_context, hb]

/-- Witness for C1: `"a/b.json"` contains a separator and is rejected
without filesystem access. -/
theorem load_separator_invalid_untouched_witness :
    '/' ∈ ("a/b.json" : String).data ∧
    load_video_context fs0 "a/b.json" = (.error .invalidFilename, false) :=
  ⟨by decide, load_separator_invalid_untouched fs0 "a/b.json" (by decide)⟩

/-- Counterexample for C1 as stated: the filename `".."` is a
parent-directory reference, yet `os.path.basename("..") == ".."`, so the
guard does not fire: `load` reaches the filesystem (second component `true`)
and fails with `FileNotFoundError`, not with the `InvalidInput` error. -/
theorem load_parent_ref_not_rejected :
    (load_video_context fs0 "..").2 = true ∧
    (load_video_context fs0 "..").1 = .error .notFound := by
  exact ⟨rfl, rfl⟩

/-- C2 (amended): a `POST /ask` whose `video_file` is a bad filename (not
equal to its own basename) yields HTTP 404 — not 400 — because the handler
catches `ValueError` together with `FileNotFoundError`/`JSONDecodeError` and
maps all three to 404; the model is not called and the filesystem is not
touched. -/
theorem ask_invalid_filename_404 (fs : FS) (gen : String → Except String String)
    (fields : List (String × Json)) (q : Json) (s : String)
    (hq : getField fields "question" = some q) (hqt : q.truthy = true)
    (hv : getField fields "video_file" = some (.str s))
    (hbad : basename s ≠ s) :
    (ask_question fs gen "POST" (some (.obj fields))).status = 404 ∧
    (ask_question fs gen "POST" (some (.obj fields))).modelCalled = false ∧
    (ask_question fs gen "POST" (some (.obj fields))).fsTouched = false := by
  have hne : fields ≠ [] := by
    intro h0
    subst h0
    simp [getField] at hq
  have ht : (Json.obj fields).truthy = true := by
    simp [Json.truthy, List.isEmpty_iff, hne]
  have hs : s ≠ "" := by
    intro h0
    subst h0
    exact hbad rfl
  have hload : load_video_context fs s = (.error .invalidFilename, false) := by
    simp [load_video_context, hbad]
  have h1 : truthyOpt (some q) = true := by simp [truthyOpt, hqt]
  have h2 : truthyOpt (some (Json.str s)) = true := by simp [truthyOpt, Json.truthy, hs]
  unfold ask_question
  rw [if_neg (by decide)]
  simp [ht, hq, hv, h1, h2, hload]

/-- Witness for C2's amended theorem: a concrete bad filename. -/
theorem ask_invalid_filename_404_witness :
    (ask_question fs0 gen0 "POST"
      (some (.obj [("question", .str "Where?"), ("video_file", .str "a/b.json")]))).status = 404 ∧
    (ask_question fs0 gen0 "POST"
      (some (.obj [("question", .str "Where?"), ("video_file", .str "a/b.json")]))).modelCalled = false ∧
    (ask_question fs0 gen0 "POST"
      (some (.obj [("question", .str "Where?"), ("video_file", .str "a/b.json")]))).fsTouched = false :=
  ask_invalid_filename_404 fs0 gen0 [("question", .str "Where?"), ("video_file", .str "a/b.json")]
    (.str "Where?") "a/b.json" rfl rfl rfl (by decide)

/-- Counterexample for C2 as stated: the same request does not get status
400. -/
theorem ask_invalid_filename_not_400 :
    (ask_question fs0 gen0 "POST"
      (some (.obj [("question", .str "Why?"), ("video_file", .str "../etc/passwd")]))).status = 404 := by
  rfl

/-- C4: a `POST /ask` whose JSON object body lacks the `video_file` (or the
`question`) field yields status 400 and the model is never called. -/
theorem ask_missing_field_400_no_model (fs : FS) (gen : String → Except String String)
    (fields : List (String × Json))
    (h : getField fields "question" = none ∨ getField fields "video_file" = none) :
    (ask_question fs gen "POST" (some (.obj fields))).status = 400 ∧
    (ask_question fs gen "POST" (some (.obj fields))).modelCalled = false := by
  unfold ask_question
  rw [if_neg (by decide)]
  cases htruth : (Json.obj fields).truthy with
  | false => simp [htruth]
  | true =>
    have hv : (truthyOpt (getField fields "question") &&
        truthyOpt (getField fields "video_file")) = false := by
      rcases h with h | h <;> simp [h, truthyOpt]
    simp [htruth, hv]

/-- Witness for C4: a body with only a `question` field. -/
theorem ask_missing_field_400_no_model_witness :
    (ask_question fs0 gen0 "POST" (some (.obj [("question", .str "Where?")]))).status = 400 ∧
    (ask_question fs0 gen0 "POST" (some (.obj [("question", .str "Where?")]))).modelCalled = false :=
  ask_missing_field_400_no_model fs0 gen0 [("question", .str "Where?")] (Or.inr rfl)

/-- C5: `create_prompt` is a pure deterministic function of its two
arguments — two evaluations on equal inputs yield the identical prompt
string (it is a total Lean function, hence has no side effects). -/
theorem create_prompt_deterministic (q c q2 c2 : String) (hq : q = q2) (hc : c = c2) :
    create_prompt q c = create_prompt q2 c2 := by
  rw [hq, hc]

/-- Witness for C5. -/
theorem create_prompt_deterministic_witness :
    create_prompt "Where?" "ctx" = create_prompt "Where?" "ctx" :=
  create_prompt_deterministic "Where?" "ctx" "Where?" "ctx" rfl rfl

/-- C3: a `POST /ask-streaming` with a valid question and video_file returns
status 200 whose streamed body is `stream_gemini_response`; when the upstream
stream ends normally the body's concatenation equals the concatenation of all
chunk texts in emission order; when the upstream call fails after `chunks`
have been delivered, the stream is still a finite list that is non-empty and
ends with the in-band inline error notice — the status stays 200, never a
protocol-level failure. -/
theorem streaming_success_and_inline_error (fs : FS) (chunks : List String)
    (fail : Option String) (fields : List (String × Json)) (q : Json) (s ctx : String)
    (hq : getField fields "question" = some q) (hqt : q.truthy = true)
    (hv : getField fields "video_file" = some (.str s)) (hs : s ≠ "")
    (hload : load_video_context fs s = (.ok ctx, true)) :
    (ask_question_streaming fs chunks fail "POST" (some (.obj fields))).status = 200 ∧
    (ask_question_streaming fs chunks fail "POST" (some (.obj fields))).streamBody =
      stream_gemini_response chunks fail ∧
    (fail = none →
      concatAll ((ask_question_streaming fs chunks fail "POST" (some (.obj fields))).streamBody) =
        concatAll chunks) ∧
    (∀ e, fail = some e →
      (ask_question_streaming fs chunks fail "POST" (some (.obj fields))).streamBody ≠ [] ∧
      ((ask_question_streaming fs chunks fail "POST" (some (.obj fields))).streamBody).getLast? =
        some ("\nAn error occurred during streaming: " ++ e)) := by
  have hne : fields ≠ [] := by
    intro h0
    subst h0
    simp [getField] at hq
  have ht : (Json.obj fields).truthy = true := by
    simp [Json.truthy, List.isEmpty_iff, hne]
  have h1 : truthyOpt (some q) = true := by simp [truthyOpt, hqt]
  have h2 : truthyOpt (some (Json.str s)) = true := by simp [truthyOpt, Json.truthy, hs]
  have key : ask_question_streaming fs chunks fail "POST" (some (.obj fields)) =
      ⟨200, [("Access-Control-Allow-Origin", "*")],
       .stream (stream_gemini_response chunks fail), true, true⟩ := by
    unfold ask_question_streaming
    rw [if_neg (by decide)]
    simp [ht, hq, hv, h1, h2, hload]
  rw [key]
  refine ⟨rfl, rfl, ?_, ?_⟩
  · intro hf
    subst hf
    exact concatAll_stream_none chunks
  · intro e hf
    subst hf
    exact stream_some_getLast chunks e

/-- Witness for C3: a concrete valid streaming request, one upstream run that
ends normally and one that fails after two chunks. -/
theorem streaming_success_and_inline_error_witness :
    (ask_question_streaming fs0 ["Hello ", "", "world"] none "POST"
      (some (.obj askFields))).status = 200 ∧
    concatAll ((ask_question_streaming fs0 ["Hello ", "", "world"] none "POST"
      (some (.obj askFields))).streamBody) = concatAll ["Hello ", "", "world"] ∧
    ((ask_question_streaming fs0 ["Hello ", "", "world"] (some "boom") "POST"
      (some (.obj askFields))).streamBody).getLast? =
        some ("\nAn error occurred during streaming: " ++ "boom") :=
  ⟨(streaming_success_and_inline_error fs0 ["Hello ", "", "world"] none askFields
      (.str "Where is the intro?") "sample.json" (dumpsVal 0 sampleDoc)
      rfl rfl rfl (by decide) rfl).1,
   (streaming_success_and_inline_error fs0 ["Hello ", "", "world"] none askFields
      (.str "Where is the intro?") "sample.json" (dumpsVal 0 sampleDoc)
      rfl rfl rfl (by decide) rfl).2.2.1 rfl,
   ((streaming_success_and_inline_error fs0 ["Hello ", "", "world"] (some "boom") askFields
      (.str "Where is the intro?") "sample.json" (dumpsVal 0 sampleDoc)
      rfl rfl rfl (by decide) rfl).2.2.2 "boom" rfl).2⟩

/-- C6: `GET /videos` returns exactly the names of the data directory's files
ending in `".json"` — a function of the names alone, independent of the
files' contents — and a missing data directory yields status 500. -/
theorem videos_lists_json_files (fs : FS) :
    (fs.dirExists = true →
      (list_videos fs "GET").status = 200 ∧
      (list_videos fs "GET").body =
        .json (.arr (((fs.files.map Prod.fst).filter (fun f => pyEndsWith f ".json")).map Json.str))) ∧
    (fs.dirExists = false → (list_videos fs "GET").status = 500) := by
  constructor <;> intro h <;> simp [list_videos, h]

/-- Witness for C6: on a directory holding `sample.json`, `notes.txt` and the
malformed `bad.json`, exactly the two `.json` names come back (content
validity is irrelevant); a missing directory yields 500. -/
theorem videos_lists_json_files_witness :
    (list_videos fs0 "GET").status = 200 ∧
    (list_videos fs0 "GET").body = .json (.arr [.str "sample.json", .str "bad.json"]) ∧
    (list_videos fsNoDir "GET").status = 500 :=
  ⟨((videos_lists_json_files fs0).1 rfl).1,
   Eq.trans ((videos_lists_json_files fs0).1 rfl).2 (by rfl),
   (videos_lists_json_files fsNoDir).2 rfl⟩

/-- C7 (amended): an OPTIONS request on any of the four routes returns the
centralized preflight response and executes no business logic (no model call,
no filesystem access); that response carries exactly the three CORS headers,
allowing all origins but only the methods `GET,POST,OPTIONS` and only the
headers `Content-Type,Authorization`. -/
theorem options_preflight_headers (fs : FS) (gen : String → Except String String)
    (chunks : List String) (fail : Option String) (data : Option Json) :
    list_videos fs "OPTIONS" = handle_preflight ∧
    ask_question fs gen "OPTIONS" data = handle_preflight ∧
    ask_question_streaming fs chunks fail "OPTIONS" data = handle_preflight ∧
    read_root "OPTIONS" = handle_preflight ∧
    handle_preflight.status = 200 ∧
    handle_preflight.headers =
      [("Access-Control-Allow-Origin", "*"),
       ("Access-Control-Allow-Headers", "Content-Type,Authorization"),
       ("Access-Control-Allow-Methods", "GET,POST,OPTIONS")] ∧
    handle_preflight.modelCalled = false ∧
    handle_preflight.fsTouched = false :=
  ⟨rfl, rfl, rfl, rfl, rfl, rfl, rfl, rfl⟩

/-- Counterexample for C7 as stated: the preflight response's
`Access-Control-Allow-Methods` value is `"GET,POST,OPTIONS"`, which does not
allow `PUT` (nor `DELETE`), and its `Access-Control-Allow-Headers` value is
`"Content-Type,Authorization"`, which does not allow `Accept`, `Origin` or
`X-Requested-With`. -/
theorem preflight_methods_omit_put :
    (handle_preflight.headers.lookup "Access-Control-Allow-Methods" = some "GET,POST,OPTIONS") ∧
    (splitCommas "GET,POST,OPTIONS" = ["GET", "POST", "OPTIONS"]) ∧
    ("PUT" ∉ splitCommas "GET,POST,OPTIONS") ∧
    (handle_preflight.headers.lookup "Access-Control-Allow-Headers" = some "Content-Type,Authorization") ∧
    ("Accept" ∉ splitCommas "Content-Type,Authorization") := by
  refine ⟨rfl, rfl, by decide, rfl, by decide⟩

/-- C8: the thumbnail batch collects exactly the (formatted) paths of the
successfully produced thumbnails, in catalog order, while the log shows that
every catalog entry is processed — a per-entry ffmpeg failure is logged and
iteration continues, never aborting the batch. -/
theorem batch_collects_successes_continues (ffmpegOk : List String → Bool) :
    (runBatch ffmpegOk).1 =
      ((VIDEOS_DATA.filter (fun e => ffmpegOk (ffmpeg_cmd e.2 (thumbPath e.1)))).map
        (fun e => thumbLine e.1)) ∧
    (runBatch ffmpegOk).2 =
      VIDEOS_DATA.map (fun e => batchLog (ffmpegOk (ffmpeg_cmd e.2 (thumbPath e.1))) e.1) := by
  have h := batchLoop_eq ffmpegOk VIDEOS_DATA
  unfold runBatch
  rw [h]
  exact ⟨rfl, rfl⟩

/-- C9: on both `POST /ask` and `POST /ask-streaming`, a body whose
`question` or `video_file` is present but falsy (empty string, `null`, `0`,
an empty object body, ...) — or absent — yields status 400 with neither the
context file nor the model touched: the validation tests truthiness, not mere
presence. -/
theorem falsy_fields_rejected_400 (fs : FS) (gen : String → Except String String)
    (chunks : List String) (fail : Option String) (fields : List (String × Json))
    (h : truthyOpt (getField fields "question") = false ∨
         truthyOpt (getField fields "video_file") = false) :
    ((ask_question fs gen "POST" (some (.obj fields))).status = 400 ∧
     (ask_question fs gen "POST" (some (.obj fields))).modelCalled = false ∧
     (ask_question fs gen "POST" (some (.obj fields))).fsTouched = false) ∧
    ((ask_question_streaming fs chunks fail "POST" (some (.obj fields))).status = 400 ∧
     (ask_question_streaming fs chunks fail "POST" (some (.obj fields))).modelCalled = false ∧
     (ask_question_streaming fs chunks fail "POST" (some (.obj fields))).fsTouched = false) := by
  have hv : (truthyOpt (getField fields "question") &&
      truthyOpt (getField fields "video_file")) = false := by
    rcases h with h | h <;> simp [h]
  constructor
  · unfold ask_question
    rw [if_neg (by decide)]
    cases htruth : (Json.obj fields).truthy with
    | false => simp [htruth]
    | true => simp [htruth, hv]
  · unfold ask_question_streaming
    rw [if_neg (by decide)]
    cases htruth : (Json.obj fields).truthy with
    | false => simp [htruth]
    | true => simp [htruth, hv]

/-- Witness for C9: `question` present but equal to the empty string. -/
theorem falsy_fields_rejected_400_witness :
    ((ask_question fs0 gen0 "POST"
        (some (.obj [("question", .str ""), ("video_file", .str "sample.json")]))).status = 400 ∧
     (ask_question fs0 gen0 "POST"
        (some (.obj [("question", .str ""), ("video_file", .str "sample.json")]))).modelCalled = false ∧
     (ask_question fs0 gen0 "POST"
        (some (.obj [("question", .str ""), ("video_file", .str "sample.json")]))).fsTouched = false) ∧
    ((ask_question_streaming fs0 [] none "POST"
        (some (.obj [("question", .str ""), ("video_file", .str "sample.json")]))).status = 400 ∧
     (ask_question_streaming fs0 [] none "POST"
        (some (.obj [("question", .str ""), ("video_file", .str "sample.json")]))).modelCalled = false ∧
     (ask_question_streaming fs0 [] none "POST"
        (some (.obj [("question", .str ""), ("video_file", .str "sample.json")]))).fsTouched = false) :=
  falsy_fields_rejected_400 fs0 gen0 [] none
    [("question", .str ""), ("video_file", .str "sample.json")] (Or.inl rfl)

/-- C10: every fragment forwarded from a successfully progressing model
stream is non-empty — the generator skips chunks whose text is empty, so its
output is exactly the non-empty chunk texts. -/
theorem stream_fragments_nonempty (chunks : List String) :
    (∀ s, s ∈ stream_gemini_response chunks none → s ≠ "") ∧
    stream_gemini_response chunks none = chunks.filter (fun t => t != "") := by
  refine ⟨?_, stream_none_eq_filter chunks⟩
  intro s hs
  rw [stream_none_eq_filter] at hs
  have hmem := List.of_mem_filter hs
  simpa using hmem

/-- Witness for C10: on the stream `["", "hello"]` the fragment `"hello"` is
forwarded and is non-empty. -/
theorem stream_fragments_nonempty_witness :
    "hello" ∈ stream_gemini_response ["", "hello"] none ∧ "hello" ≠ "" :=
  ⟨by decide, (stream_fragments_nonempty ["", "hello"]).1 "hello" (by decide)⟩
